import Mathlib

/-!
# TesseractWrapper: a C bridge over the Tesseract OCR engine

A shallow embedding of `src/TableMaker/TesseractWrapper.cpp`.

The wrapped engine (`tesseract::TessBaseAPI`) is not part of the repository: it is a
parameter of every definition below, a record of state-passing functions over an
arbitrary state type `σ`.  Nothing is assumed about it.

* A `const char*` argument is an `Option String`: `none` is the null pointer, `some s`
  a pointer to the C string whose text (before the terminating NUL) is `s`.
* A C `int` is an `Int`.
* The world the wrapper runs in holds the engine object a non-null handle points to,
  the list of engine calls made so far (with what each returned), the lines written to
  `std::cout`, and the indeterminate contents of freshly allocated memory.
-/

namespace TesseractWrapper

/-! ## The engine and the world -/

/-- The part of `tesseract::TessBaseAPI` the wrapper calls.  `ctor` is the state of a newly
constructed object; every non-const member function returns its result together
with the state it leaves the object in; `oem()` is a const member function. -/
structure TessBaseAPI (σ : Type) where
  ctor : σ
  Init : Option String → Option String → σ → Int × σ
  GetUTF8Text : σ → Option String × σ
  MeanTextConf : σ → Int × σ
  SetVariable : String → String → σ → Bool × σ
  oem : σ → Int

/-- One call of a member function of the engine, with its arguments and what it returned. -/
inductive EngineCall where
  | Init (datapath language : Option String) (result : Int)
  | GetUTF8Text (text : Option String)
  | MeanTextConf (result : Int)
  | SetVariable (name value : String) (accepted : Bool)
  | oem (result : Int)
  deriving DecidableEq, Repr

/-- Whether a call is a `SetVariable` call. -/
def EngineCall.isSetVariable : EngineCall → Bool
  | .SetVariable _ _ _ => true
  | _ => false

/-- A `TesseractHandle` is a `void*`: the null pointer, or a pointer to the engine object
of the world. -/
inductive TesseractHandle where
  | nullptr
  | api
  deriving DecidableEq, Repr

/-- Everything outside the wrapper: the engine object, the engine calls made so far (oldest
first), the lines written to `std::cout` (oldest first), and the byte found at each offset
of a block that `malloc` has just returned. -/
structure World (σ : Type) where
  api : σ
  calls : List EngineCall
  console : List String
  uninit : Nat → UInt8

/-- `std::cout << line << std::endl`. -/
def cout {σ : Type} (w : World σ) (line : String) : World σ :=
  { w with console := w.console ++ [line] }

/-- `api->Init(datapath, language)`. -/
def callInit {σ : Type} (E : TessBaseAPI σ) (datapath language : Option String)
    (w : World σ) : Int × World σ :=
  let r := E.Init datapath language w.api
  (r.1, { w with api := r.2, calls := w.calls ++ [EngineCall.Init datapath language r.1] })

/-- `api->GetUTF8Text()`. -/
def callGetUTF8Text {σ : Type} (E : TessBaseAPI σ) (w : World σ) : Option String × World σ :=
  let r := E.GetUTF8Text w.api
  (r.1, { w with api := r.2, calls := w.calls ++ [EngineCall.GetUTF8Text r.1] })

/-- `api->MeanTextConf()`. -/
def callMeanTextConf {σ : Type} (E : TessBaseAPI σ) (w : World σ) : Int × World σ :=
  let r := E.MeanTextConf w.api
  (r.1, { w with api := r.2, calls := w.calls ++ [EngineCall.MeanTextConf r.1] })

/-- `api->SetVariable(name, value)`. -/
def callSetVariable {σ : Type} (E : TessBaseAPI σ) (name value : String)
    (w : World σ) : Bool × World σ :=
  let r := E.SetVariable name value w.api
  (r.1, { w with api := r.2, calls := w.calls ++ [EngineCall.SetVariable name value r.1] })

/-- `api->oem()`. -/
def callOem {σ : Type} (E : TessBaseAPI σ) (w : World σ) : Int × World σ :=
  let r := E.oem w.api
  (r, { w with calls := w.calls ++ [EngineCall.oem r] })

/-! ## The C and C++ library -/

/-- `strlen`: the number of bytes of a C string before its terminator. -/
def strlen (s : String) : Nat := s.utf8ByteSize

/-- `std::to_string(int)`, also what `std::cout << int` writes: the decimal rendering. -/
def to_string (n : Int) : String :=
  match n with
  | Int.ofNat m => Nat.repr m
  | Int.negSucc m => "-" ++ Nat.repr (m + 1)

/-- `strcmp`: zero exactly when the two C strings are equal, otherwise the sign of the
comparison. -/
def strcmp (a b : String) : Int :=
  if a = b then 0 else if a < b then -1 else 1

/-- A block of `n` bytes as `malloc(n)` returns it: its contents are indeterminate. -/
def malloc {σ : Type} (w : World σ) (n : Nat) : List UInt8 :=
  (List.range n).map w.uninit

/-- `strcpy(dst, src)` for a block `dst`: the bytes of `src` and the terminating NUL are
written over the start of `dst`.  Writing past the end of `dst` is undefined behaviour:
`none`. -/
def strcpy (dst : List UInt8) (src : String) : Option (List UInt8) :=
  let bytes := src.toUTF8.data.toList ++ [0]
  if bytes.length ≤ dst.length then some (bytes ++ dst.drop bytes.length) else none

/-- How many low bits of `a` do not fit a 24-bit significand. -/
def excessBits : Nat → Nat → Nat
  | 0, _ => 0
  | fuel + 1, a => if a < 2 ^ 24 then 0 else excessBits fuel (a / 2) + 1

/-- The natural number `a` rounded to a 24-bit significand, to nearest, ties to even. -/
def roundToFloat (a : Nat) : Nat :=
  let e := excessBits a a
  let q := a / 2 ^ e
  let r := a % 2 ^ e
  let q := if 2 * r > 2 ^ e ∨ (2 * r = 2 ^ e ∧ q % 2 = 1) then q + 1 else q
  q * 2 ^ e

/-- A `float` (IEEE 754 binary32) that holds an integer, as that integer.  `0.0f` and
every `float` converted from an `int` are such. -/
abbrev CFloat := Int

/-- The conversion of an `int` to `float`, as in `result.confidence = api->MeanTextConf()`. -/
def int_to_float (n : Int) : CFloat :=
  match n with
  | Int.ofNat m => Int.ofNat (roundToFloat m)
  | Int.negSucc m => - Int.ofNat (roundToFloat (m + 1))

/-! ## The wrapper -/

/-- `tesseract_create`, run on an empty call log with `console` already written.
A non-null handle points to the engine object constructed by its `new`; on failure that
object is deleted and the handle is null. -/
def tesseract_create {σ : Type} (E : TessBaseAPI σ) (datapath language : Option String)
    (console : List String) (uninit : Nat → UInt8) : TesseractHandle × World σ :=
  let w : World σ := { api := E.ctor, calls := [], console := console, uninit := uninit }
  let w := cout w "Attempting to initialize Tesseract..."
  let w := cout w ("Datapath: " ++ datapath.getD "nullptr")
  let w := cout w ("Language: " ++ language.getD "nullptr")
  let actualDatapath : Option String :=
    match datapath with
    | some d => if strlen d > 0 then some d else none
    | none => none
  let result : Int := -1
  let (result, w) :=
    match actualDatapath with
    | some p =>
      let (r, w) := callInit E (some p) language w
      (r, cout w ("Init with path result: " ++ to_string r))
    | none => (result, w)
  let (result, w) :=
    if result ≠ 0 then
      let (r, w) := callInit E none language w
      (r, cout w ("Init with nullptr result: " ++ to_string r))
    else (result, w)
  if result ≠ 0 then
    (TesseractHandle.nullptr, cout w "Tesseract initialization failed!")
  else
    (TesseractHandle.api, cout w "Tesseract initialized successfully!")


/-- The record `OCRResult`: `text` is null or points to a block of bytes. -/
structure OCRResult where
  text : Option (List UInt8)
  confidence : CFloat
  deriving DecidableEq

/-- `tesseract_get_text_with_confidence`; `none` when the copy would write out of bounds. -/
def tesseract_get_text_with_confidence {σ : Type} (E : TessBaseAPI σ)
    (handle : TesseractHandle) (w : World σ) : Option (OCRResult × World σ) :=
  let result : OCRResult := { text := none, confidence := 0 }
  match handle with
  | TesseractHandle.nullptr => some (result, w)
  | TesseractHandle.api =>
    let (text, w) := callGetUTF8Text E w
    let copied : Option OCRResult :=
      match text with
      | some t =>
        match strcpy (malloc w (strlen t + 1)) t with
        | some block => some { result with text := some block }
        | none => none
      | none => some result
    match copied with
    | none => none
    | some result =>
      let (conf, w) := callMeanTextConf E w
      some ({ result with confidence := int_to_float conf }, w)

/-- `tesseract_set_oem`. -/
def tesseract_set_oem {σ : Type} (E : TessBaseAPI σ) (handle : TesseractHandle) (oem : Int)
    (w : World σ) : Int × World σ :=
  match handle with
  | TesseractHandle.nullptr => (0, w)
  | TesseractHandle.api =>
    let w := cout w "WARNING: Setting OEM after Init may not work. Consider reinitializing."
    let (ok, w) := callSetVariable E "tessedit_ocr_engine_mode" (to_string oem) w
    (if ok then 1 else 0, w)

/-- `tesseract_get_oem`. -/
def tesseract_get_oem {σ : Type} (E : TessBaseAPI σ) (handle : TesseractHandle)
    (w : World σ) : Int × World σ :=
  match handle with
  | TesseractHandle.nullptr => (-1, w)
  | TesseractHandle.api => callOem E w

/-- `tesseract_set_variable`. -/
def tesseract_set_variable {σ : Type} (E : TessBaseAPI σ) (handle : TesseractHandle)
    (name value : Option String) (w : World σ) : Int × World σ :=
  match handle, name, value with
  | TesseractHandle.api, some name, some value =>
    let w :=
      if strcmp name "tessedit_char_whitelist" = 0 ∨ strcmp name "tessedit_char_blacklist" = 0 then
        let (currentOEM, w) := callOem E w
        let w := cout w ("Setting " ++ name ++ " = '" ++ value ++ "'")
        let w := cout w ("Current OEM: " ++ to_string currentOEM)
        if currentOEM = 1 then
          let w := cout w "WARNING: Character filtering does NOT work with LSTM engine (OEM 1)!"
          cout w "You must use Legacy engine (OEM 0) for character filtering to work."
        else w
      else w
    let (success, w) := callSetVariable E name value w
    let w :=
      if !success then cout w ("Failed to set variable: " ++ name ++ " = " ++ value) else w
    (if success then 1 else 0, w)
  | _, _, _ => (0, w)

/-- `tesseract_set_whitelist`. -/
def tesseract_set_whitelist {σ : Type} (E : TessBaseAPI σ) (handle : TesseractHandle)
    (whitelist : Option String) (w : World σ) : Int × World σ :=
  match handle, whitelist with
  | TesseractHandle.api, some whitelist =>
    let (currentOEM, w) := callOem E w
    if currentOEM = 1 then
      let w := cout w "ERROR: Character whitelist does NOT work with LSTM engine (OEM 1)!"
      let w := cout w "You must use Legacy engine (OEM 0) for whitelist to work."
      let w := cout w "Call tesseract_set_oem(handle, 0) before setting whitelist."
      (0, w)
    else
      let w := cout w ("Setting character whitelist: '" ++ whitelist ++ "'")
      tesseract_set_variable E handle (some "tessedit_char_whitelist") (some whitelist) w
  | _, _ => (0, w)

/-- `tesseract_set_blacklist`. -/
def tesseract_set_blacklist {σ : Type} (E : TessBaseAPI σ) (handle : TesseractHandle)
    (blacklist : Option String) (w : World σ) : Int × World σ :=
  match handle, blacklist with
  | TesseractHandle.api, some blacklist =>
    let (currentOEM, w) := callOem E w
    if currentOEM = 1 then
      let w := cout w "ERROR: Character blacklist does NOT work with LSTM engine (OEM 1)!"
      let w := cout w "You must use Legacy engine (OEM 0) for blacklist to work."
      let w := cout w "Call tesseract_set_oem(handle, 0) before setting blacklist."
      (0, w)
    else
      let w := cout w ("Setting character blacklist: '" ++ blacklist ++ "'")
      tesseract_set_variable E handle (some "tessedit_char_blacklist") (some blacklist) w
  | _, _ => (0, w)

/-- `tesseract_setup_for_character_filtering`. -/
def tesseract_setup_for_character_filtering {σ : Type} (E : TessBaseAPI σ)
    (handle : TesseractHandle) (w : World σ) : Int × World σ :=
  match handle with
  | TesseractHandle.nullptr => (0, w)
  | TesseractHandle.api =>
    let w := cout w "Setting up Tesseract for character filtering..."
    let w := cout w
      "WARNING: Switching to Legacy OCR engine (less accurate but supports filtering)"
    let (result, w) :=
      tesseract_set_variable E handle (some "tessedit_ocr_engine_mode") (some "0") w
    let w :=
      if result ≠ 0 then cout w "Successfully configured for character filtering"
      else cout w "Failed to configure for character filtering"
    (result, w)

/-! ## A sample engine -/

/-- State of the sample engine: the mode `oem()` reports, the parameters set so far (newest
first), the text and the mean confidence of the page. -/
structure SampleState where
  last_oem_requested : Int
  params : List (String × String)
  text : Option String
  conf : Int
  deriving DecidableEq

/-- A sample engine to run the wrapper on.  `Init` succeeds for the language "eng" and
requests the default mode 3; `SetVariable` accepts every non-empty name and records the
pair; `oem()` reports the mode requested at initialisation, whatever has been set since. -/
def sampleEngine : TessBaseAPI SampleState where
  ctor := { last_oem_requested := 3, params := [], text := none, conf := 0 }
  Init := fun _ language s =>
    if language = some "eng" then (0, { s with last_oem_requested := 3 }) else (-1, s)
  GetUTF8Text := fun s => (s.text, s)
  MeanTextConf := fun s => (s.conf, s)
  SetVariable := fun name value s =>
    if name = "" then (false, s) else (true, { s with params := (name, value) :: s.params })
  oem := fun s => s.last_oem_requested

/-- A world around the sample engine in the given state, with nothing called or written
yet. -/
def sampleWorld (s : SampleState) : World SampleState :=
  { api := s, calls := [], console := [], uninit := fun _ => 0xCD }

theorem strlen_pos_iff (s : String) : 0 < strlen s ↔ s ≠ "" := by
  rcases s with ⟨cs⟩
  cases cs with
  | nil => simp [strlen, String.utf8ByteSize, String.utf8ByteSize.go]
  | cons c cs =>
    have hc := Char.utf8Size_pos c
    have hne : (⟨c :: cs⟩ : String) ≠ "" := by
      intro h
      have := congrArg String.data h
      simp at this
    simp only [strlen, String.utf8ByteSize, String.utf8ByteSize.go, ne_eq, hne,
      not_false_eq_true, iff_true]
    omega

theorem strcmp_eq_zero_iff (a b : String) : strcmp a b = 0 ↔ a = b := by
  unfold strcmp
  by_cases h : a = b
  · simp [h]
  · by_cases h2 : a < b <;> simp [h, h2]

theorem mode_name_is_not_a_filter_name :
    ¬ (strcmp "tessedit_ocr_engine_mode" "tessedit_char_whitelist" = 0 ∨
       strcmp "tessedit_ocr_engine_mode" "tessedit_char_blacklist" = 0) := by
  rw [strcmp_eq_zero_iff, strcmp_eq_zero_iff]
  decide

theorem excessBits_of_lt (fuel a : Nat) (h : a < 2 ^ 24) : excessBits fuel a = 0 := by
  cases fuel with
  | zero => rfl
  | succ n =>
    have h2 : a < 16777216 := by simpa using h
    simp [excessBits, h2]

theorem roundToFloat_of_le (a : Nat) (h : a ≤ 2 ^ 24) : roundToFloat a = a := by
  rcases Nat.lt_or_eq_of_le h with hlt | heq
  · simp [roundToFloat, excessBits_of_lt a a hlt, Nat.mod_one]
  · subst heq
    decide

theorem int_to_float_exact (v : Int) (hlo : -(2 ^ 24) ≤ v) (hhi : v ≤ 2 ^ 24) :
    int_to_float v = v := by
  cases v with
  | ofNat m =>
    have hm : m ≤ 2 ^ 24 := by
      have : (m : Int) ≤ 2 ^ 24 := hhi
      exact_mod_cast this
    simp [int_to_float, roundToFloat_of_le m hm]
  | negSucc m =>
    have hm : m + 1 ≤ 2 ^ 24 := by
      have : -(2 ^ 24 : Int) ≤ -((m : Int) + 1) := by
        simpa [Int.negSucc_eq] using hlo
      omega
    simp only [int_to_float, roundToFloat_of_le (m + 1) hm]
    rfl

theorem strcpy_into_fresh_block {σ : Type} (w : World σ) (t : String) :
    strcpy (malloc w (strlen t + 1)) t = some (t.toUTF8.data.toList ++ [0]) := by
  have hsize : t.toUTF8.data.toList.length = t.utf8ByteSize := by
    have := String.size_toUTF8 t
    simpa [ByteArray.size] using this
  simp [strcpy, malloc, strlen, hsize]

theorem utf8_block_length (t : String) :
    (t.toUTF8.data.toList ++ [0]).length = strlen t + 1 := by
  have hsize : t.toUTF8.data.toList.length = t.utf8ByteSize := by
    have := String.size_toUTF8 t
    simpa [ByteArray.size] using this
  simp [strlen, hsize]

theorem tesseract_get_text_with_confidence_run {σ : Type} (E : TessBaseAPI σ)
    (w : World σ) :
    tesseract_get_text_with_confidence E TesseractHandle.api w =
      some
        ({ text := (E.GetUTF8Text w.api).1.map (fun t => t.toUTF8.data.toList ++ [0]),
           confidence := int_to_float (E.MeanTextConf (E.GetUTF8Text w.api).2).1 },
         { api := (E.MeanTextConf (E.GetUTF8Text w.api).2).2,
           calls := w.calls ++ [EngineCall.GetUTF8Text (E.GetUTF8Text w.api).1,
             EngineCall.MeanTextConf (E.MeanTextConf (E.GetUTF8Text w.api).2).1],
           console := w.console,
           uninit := w.uninit }) := by
  cases ht : (E.GetUTF8Text w.api).1 with
  | none =>
    simp [tesseract_get_text_with_confidence, callGetUTF8Text, callMeanTextConf, ht]
  | some t =>
    simp [tesseract_get_text_with_confidence, callGetUTF8Text, callMeanTextConf, ht,
      strcpy_into_fresh_block]

theorem to_string_samples : to_string 0 = "0" ∧ to_string 3 = "3" ∧ to_string (-12) = "-12" := by
  decide

theorem int_to_float_samples :
    int_to_float 100 = 100 ∧ int_to_float 16777216 = 16777216 ∧
    int_to_float 16777217 = 16777216 ∧ int_to_float 16777219 = 16777220 ∧
    int_to_float 2147483647 = 2147483648 ∧ int_to_float (-2147483647) = -2147483648 := by
  decide

theorem strcpy_samples :
    strcpy [1, 2, 3, 4] "ab" = some [97, 98, 0, 4] ∧ strcpy [1, 2] "ab" = none := by
  decide

/-! ## C1: tesseract_create -/

/-- C1. For every datapath and language, `tesseract_create` returns the null handle exactly
when every `Init` attempt it made returned non-zero.  The attempts are `Init(datapath,
language)` on the new object when `datapath` is neither null nor empty, followed by
`Init(nullptr, language)` only when that returned non-zero; a null or empty `datapath`
gives the single attempt `Init(nullptr, language)`.  The handle is non-null exactly when
the last attempt returned 0, and the engine object is then in the state that attempt left. -/
theorem tesseract_create_attempts {σ : Type} (E : TessBaseAPI σ)
    (datapath language : Option String) (console : List String) (uninit : Nat → UInt8) :
    ((tesseract_create E datapath language console uninit).1 = TesseractHandle.nullptr ↔
      ∀ dp l r, EngineCall.Init dp l r ∈
        (tesseract_create E datapath language console uninit).2.calls → r ≠ 0) ∧
    ((tesseract_create E datapath language console uninit).1 = TesseractHandle.api ↔
      ∃ dp, (tesseract_create E datapath language console uninit).2.calls.getLast? =
        some (EngineCall.Init dp language 0)) ∧
    (tesseract_create E datapath language console uninit).2.calls =
      (if datapath = none ∨ datapath = some "" then
        [EngineCall.Init none language (E.Init none language E.ctor).1]
      else if (E.Init datapath language E.ctor).1 = 0 then
        [EngineCall.Init datapath language 0]
      else
        [EngineCall.Init datapath language (E.Init datapath language E.ctor).1,
         EngineCall.Init none language
          (E.Init none language (E.Init datapath language E.ctor).2).1]) ∧
    (tesseract_create E datapath language console uninit).2.api =
      (if datapath = none ∨ datapath = some "" then (E.Init none language E.ctor).2
      else if (E.Init datapath language E.ctor).1 = 0 then (E.Init datapath language E.ctor).2
      else (E.Init none language (E.Init datapath language E.ctor).2).2) := by
  rcases datapath with _ | d
  · by_cases h0 : (E.Init none language E.ctor).1 = 0
    · simp [tesseract_create, callInit, cout, h0]
    · simp [tesseract_create, callInit, cout, h0]
      intro _ _ r _ _ hr
      rw [hr]
      exact h0
  · by_cases hd : d = ""
    · subst hd
      have hlen : ¬ (0 < strlen "") := by decide
      by_cases h0 : (E.Init none language E.ctor).1 = 0
      · simp [tesseract_create, callInit, cout, h0, hlen]
      · simp [tesseract_create, callInit, cout, h0, hlen]
        intro _ _ r _ _ hr
        rw [hr]
        exact h0
    · have hpos : 0 < strlen d := (strlen_pos_iff d).2 hd
      by_cases h1 : (E.Init (some d) language E.ctor).1 = 0
      · simp [tesseract_create, callInit, cout, hpos, hd, h1]
      · by_cases h2 : (E.Init none language (E.Init (some d) language E.ctor).2).1 = 0
        · simp [tesseract_create, callInit, cout, hpos, hd, h1, h2]
          exact ⟨none, language, Or.inr ⟨rfl, rfl⟩⟩
        · simp [tesseract_create, callInit, cout, hpos, hd, h1, h2]
          intro _ _ r hr
          rcases hr with ⟨_, _, hr⟩ | ⟨_, _, hr⟩ <;> rw [hr] <;> assumption

/-! ## C6: tesseract_set_variable -/

/-- C6. `tesseract_set_variable` passes any parameter through: it returns 1 exactly when
handle, name and value are all non-null and the engine's `SetVariable(name, value)`
accepts, and its result is always 0 or 1.  When all three are non-null the engine receives
one `SetVariable` call, with that name and value, and is left in the state that call
produces; otherwise it receives none and is left as it was.  Neither the name (the
whitelist and blacklist names included) nor the current OEM changes this. -/
theorem tesseract_set_variable_pass_through {σ : Type} (E : TessBaseAPI σ)
    (handle : TesseractHandle) (name value : Option String) (w : World σ) :
    ((tesseract_set_variable E handle name value w).1 = 1 ↔
      handle = TesseractHandle.api ∧
        ∃ n v, name = some n ∧ value = some v ∧ (E.SetVariable n v w.api).1 = true) ∧
    ((tesseract_set_variable E handle name value w).1 = 0 ∨
      (tesseract_set_variable E handle name value w).1 = 1) ∧
    (tesseract_set_variable E handle name value w).2.calls.filter EngineCall.isSetVariable =
      w.calls.filter EngineCall.isSetVariable ++
        (match handle, name, value with
          | TesseractHandle.api, some n, some v =>
            [EngineCall.SetVariable n v (E.SetVariable n v w.api).1]
          | _, _, _ => []) ∧
    (tesseract_set_variable E handle name value w).2.api =
      (match handle, name, value with
        | TesseractHandle.api, some n, some v => (E.SetVariable n v w.api).2
        | _, _, _ => w.api) := by
  cases handle with
  | nullptr => simp [tesseract_set_variable]
  | api =>
    rcases name with _ | n
    · simp [tesseract_set_variable]
    · rcases value with _ | v
      · simp [tesseract_set_variable]
      · by_cases hf : strcmp n "tessedit_char_whitelist" = 0 ∨
            strcmp n "tessedit_char_blacklist" = 0
        · by_cases h1 : E.oem w.api = 1 <;>
            cases hs : (E.SetVariable n v w.api).1 <;>
            simp [tesseract_set_variable, callSetVariable, callOem, cout, hf, h1, hs,
              EngineCall.isSetVariable]
        · cases hs : (E.SetVariable n v w.api).1 <;>
            simp [tesseract_set_variable, callSetVariable, callOem, cout, hf, hs,
              EngineCall.isSetVariable]

/-! ## C5: tesseract_setup_for_character_filtering and tesseract_set_oem -/

/-- C5. For every handle, `tesseract_setup_for_character_filtering(handle)` and
`tesseract_set_oem(handle, 0)` return the same value, make the same engine calls and leave
the engine in the same state.  On a non-null handle the one call both make is
`SetVariable("tessedit_ocr_engine_mode", "0")`, the decimal rendering of 0 being "0"; on a
null handle both return 0 and leave the world, console included, untouched.  The worlds
the two leave differ in nothing but the console. -/
theorem tesseract_setup_for_character_filtering_eq_set_oem_zero {σ : Type}
    (E : TessBaseAPI σ) (handle : TesseractHandle) (w : World σ) :
    (tesseract_setup_for_character_filtering E handle w).1 =
      (tesseract_set_oem E handle 0 w).1 ∧
    (tesseract_setup_for_character_filtering E handle w).2.calls =
      (tesseract_set_oem E handle 0 w).2.calls ∧
    (tesseract_setup_for_character_filtering E handle w).2.api =
      (tesseract_set_oem E handle 0 w).2.api ∧
    (tesseract_setup_for_character_filtering E handle w).2 =
      { (tesseract_set_oem E handle 0 w).2 with
        console := (tesseract_setup_for_character_filtering E handle w).2.console } ∧
    (tesseract_set_oem E handle 0 w).2.calls = w.calls ++
      (match handle with
        | TesseractHandle.api =>
          [EngineCall.SetVariable "tessedit_ocr_engine_mode" "0"
            (E.SetVariable "tessedit_ocr_engine_mode" "0" w.api).1]
        | TesseractHandle.nullptr => []) ∧
    to_string 0 = "0" ∧
    tesseract_setup_for_character_filtering E TesseractHandle.nullptr w = (0, w) ∧
    tesseract_set_oem E TesseractHandle.nullptr 0 w = (0, w) := by
  have hz : to_string 0 = "0" := by decide
  have hn := mode_name_is_not_a_filter_name
  cases handle with
  | nullptr => simp [tesseract_setup_for_character_filtering, tesseract_set_oem, hz]
  | api =>
    cases hs : (E.SetVariable "tessedit_ocr_engine_mode" "0" w.api).1 <;>
      simp [tesseract_setup_for_character_filtering, tesseract_set_oem, tesseract_set_variable,
        callSetVariable, cout, hz, hn, hs]

/-! ## C3: tesseract_set_whitelist and tesseract_set_blacklist -/

/-- C3, as stated, fails: on an engine in the default mode 3 that accepts the parameter,
both convenience functions return 1 although `oem()` is not 0. -/
theorem filter_functions_return_one_in_mode_three :
    (tesseract_set_whitelist sampleEngine TesseractHandle.api (some "0123456789")
      (sampleWorld { last_oem_requested := 3, params := [], text := none, conf := 0 })).1 = 1 ∧
    (tesseract_set_blacklist sampleEngine TesseractHandle.api (some "0123456789")
      (sampleWorld { last_oem_requested := 3, params := [], text := none, conf := 0 })).1 = 1 ∧
    sampleEngine.oem
      (sampleWorld { last_oem_requested := 3, params := [], text := none, conf := 0 }).api
        ≠ 0 := by
  decide

/-- C3, amended. For a non-null handle and a non-null character list,
`tesseract_set_whitelist` and `tesseract_set_blacklist` return 1 exactly when the engine's
current mode `oem()` is not 1 and the engine accepts the `SetVariable` call for the
whitelist, respectively blacklist, parameter.  In mode 1 they return 0 and the engine
receives no `SetVariable` call; in every other mode they return 0 when the engine does not
accept. -/
theorem filter_functions_reject_only_mode_one {σ : Type} (E : TessBaseAPI σ)
    (chars : String) (w : World σ) :
    ((tesseract_set_whitelist E TesseractHandle.api (some chars) w).1 = 1 ↔
      E.oem w.api ≠ 1 ∧ (E.SetVariable "tessedit_char_whitelist" chars w.api).1 = true) ∧
    ((tesseract_set_blacklist E TesseractHandle.api (some chars) w).1 = 1 ↔
      E.oem w.api ≠ 1 ∧ (E.SetVariable "tessedit_char_blacklist" chars w.api).1 = true) ∧
    (tesseract_set_whitelist E TesseractHandle.api (some chars) w).2.calls =
      (if E.oem w.api = 1 then w.calls ++ [EngineCall.oem 1]
      else w.calls ++ [EngineCall.oem (E.oem w.api), EngineCall.oem (E.oem w.api),
        EngineCall.SetVariable "tessedit_char_whitelist" chars
          (E.SetVariable "tessedit_char_whitelist" chars w.api).1]) ∧
    (tesseract_set_blacklist E TesseractHandle.api (some chars) w).2.calls =
      (if E.oem w.api = 1 then w.calls ++ [EngineCall.oem 1]
      else w.calls ++ [EngineCall.oem (E.oem w.api), EngineCall.oem (E.oem w.api),
        EngineCall.SetVariable "tessedit_char_blacklist" chars
          (E.SetVariable "tessedit_char_blacklist" chars w.api).1]) ∧
    (tesseract_set_whitelist E TesseractHandle.api (some chars) w).1 =
      (if E.oem w.api = 1 then 0
      else if (E.SetVariable "tessedit_char_whitelist" chars w.api).1 then 1 else 0) ∧
    (tesseract_set_blacklist E TesseractHandle.api (some chars) w).1 =
      (if E.oem w.api = 1 then 0
      else if (E.SetVariable "tessedit_char_blacklist" chars w.api).1 then 1 else 0) := by
  have hw : strcmp "tessedit_char_whitelist" "tessedit_char_whitelist" = 0 :=
    (strcmp_eq_zero_iff _ _).2 rfl
  have hb : strcmp "tessedit_char_blacklist" "tessedit_char_blacklist" = 0 :=
    (strcmp_eq_zero_iff _ _).2 rfl
  by_cases h1 : E.oem w.api = 1
  · simp [tesseract_set_whitelist, tesseract_set_blacklist, callOem, cout, h1]
  · cases hsw : (E.SetVariable "tessedit_char_whitelist" chars w.api).1 <;>
      cases hsb : (E.SetVariable "tessedit_char_blacklist" chars w.api).1 <;>
      simp [tesseract_set_whitelist, tesseract_set_blacklist, tesseract_set_variable,
        callSetVariable, callOem, cout, h1, hw, hb, hsw, hsb]

/-! ## C4: tesseract_set_oem followed by tesseract_set_whitelist -/

/-- C2. For a non-null handle whose engine reports a mean confidence that a `float` holds
exactly (any value from -2^24 to 2^24, the documented range 0..100 included),
`tesseract_get_text_with_confidence` returns, after one `GetUTF8Text` call and then one
`MeanTextConf` call, a result whose text is null exactly when the engine returned no text
and otherwise points to a block of `strlen + 1` bytes holding the bytes of the engine's
text and the terminating NUL, and whose confidence equals the engine's `MeanTextConf`
value, the text being null or not; so the confidence lies in 0..100 whenever the engine's
value does. -/
theorem tesseract_get_text_with_confidence_copies {σ : Type} (E : TessBaseAPI σ)
    (w : World σ)
    (hlo : -(2 ^ 24) ≤ (E.MeanTextConf (E.GetUTF8Text w.api).2).1)
    (hhi : (E.MeanTextConf (E.GetUTF8Text w.api).2).1 ≤ 2 ^ 24) :
    tesseract_get_text_with_confidence E TesseractHandle.api w =
      some
        ({ text := (E.GetUTF8Text w.api).1.map (fun t => t.toUTF8.data.toList ++ [0]),
           confidence := (E.MeanTextConf (E.GetUTF8Text w.api).2).1 },
         { api := (E.MeanTextConf (E.GetUTF8Text w.api).2).2,
           calls := w.calls ++ [EngineCall.GetUTF8Text (E.GetUTF8Text w.api).1,
             EngineCall.MeanTextConf (E.MeanTextConf (E.GetUTF8Text w.api).2).1],
           console := w.console,
           uninit := w.uninit }) ∧
    ((E.GetUTF8Text w.api).1.map (fun t => t.toUTF8.data.toList ++ [0]) = none ↔
      (E.GetUTF8Text w.api).1 = none) ∧
    (∀ t, (E.GetUTF8Text w.api).1 = some t →
      (t.toUTF8.data.toList ++ [0]).length = strlen t + 1) ∧
    (∀ r, tesseract_get_text_with_confidence E TesseractHandle.api w = some r →
      0 ≤ (E.MeanTextConf (E.GetUTF8Text w.api).2).1 ∧
        (E.MeanTextConf (E.GetUTF8Text w.api).2).1 ≤ 100 →
      0 ≤ r.1.confidence ∧ r.1.confidence ≤ 100) := by
  have hrun := tesseract_get_text_with_confidence_run E w
  rw [int_to_float_exact _ hlo hhi] at hrun
  refine ⟨hrun, ?_, ?_, ?_⟩
  · simp
  · intro t _
    exact utf8_block_length t
  · intro r hr hrange
    rw [hrun] at hr
    cases hr
    exact hrange

/-- The sample engine holding the text "A5" with mean confidence 93: the result's text is
the block 65, 53, 0 and its confidence 93. -/
theorem tesseract_get_text_with_confidence_copies_A5 :
    (sampleEngine.MeanTextConf (sampleEngine.GetUTF8Text
      (sampleWorld { last_oem_requested := 3, params := [], text := some "A5",
                     conf := 93 }).api).2).1 = 93 ∧
    (tesseract_get_text_with_confidence sampleEngine TesseractHandle.api
      (sampleWorld { last_oem_requested := 3, params := [], text := some "A5",
                     conf := 93 })).map (fun r => (r.1, r.2.calls)) =
      some ({ text := some [65, 53, 0], confidence := 93 },
        [EngineCall.GetUTF8Text (some "A5"), EngineCall.MeanTextConf 93]) :=
  ⟨by decide,
   (congrArg (Option.map (fun r => (r.1, r.2.calls)))
      (tesseract_get_text_with_confidence_copies sampleEngine
        (sampleWorld { last_oem_requested := 3, params := [], text := some "A5",
                       conf := 93 })
        (by decide) (by decide)).1).trans (by decide)⟩

end TesseractWrapper
